import Mathlib

/-!
Verification of the single-file dictionary application `d.py`.

The embedding models Python/JSON values as the inductive `Json`, Python
exceptions as `PyExc`, and the two network clients
(`get_free_dictionary_definition`, `get_llm_definition`) as pure functions
of an abstract `HttpOutcome` describing what the HTTP layer did.  The
exception model follows the stdlib hierarchy in which `json.JSONDecodeError`
is a `ValueError` (requests < 2.27, matching the except-clause structure the
source was written for).  Tkinter text-widget index arithmetic is modelled
over plain strings for `_insert_llm_result`.
-/

set_option autoImplicit false

namespace Dict

/-- A Python value as produced by JSON decoding (plus the values the
program manipulates): `None`, booleans, integers, strings, lists, dicts. -/
inductive Json where
  | null : Json
  | bool (b : Bool) : Json
  | num (n : Int) : Json
  | str (s : String) : Json
  | arr (xs : List Json) : Json
  | obj (kvs : List (String × Json)) : Json

/-- Python truthiness: `None`, `False`, `0`, `""`, `[]`, `\x7b\x7d` are falsy. -/
def Json.truthy : Json → Bool
  | .null => false
  | .bool b => b
  | .num n => n != 0
  | .str s => !s.isEmpty
  | .arr xs => !xs.isEmpty
  | .obj kvs => !kvs.isEmpty

/-- The Python type name of a value, as it appears in error messages. -/
def Json.typeName : Json → String
  | .null => "NoneType"
  | .bool _ => "bool"
  | .num _ => "int"
  | .str _ => "str"
  | .arr _ => "list"
  | .obj _ => "dict"

/-- Is the value a Python `list`?  (`isinstance(x, list)`) -/
def Json.isList : Json → Bool
  | .arr _ => true
  | _ => false

/-- Python exceptions that can arise in the two client functions. -/
inductive PyExc where
  | httpError (status : Nat) (msg : String) (bodyText : String) : PyExc
  | requestException (msg : String) : PyExc
  | jsonDecodeError (msg : String) : PyExc
  | attributeError (msg : String) : PyExc
  | keyError (msg : String) : PyExc
  | indexError (msg : String) : PyExc
  | typeError (msg : String) : PyExc

/-- First value bound to key `k`, or the default `d` (`dict.get(k, d)`). -/
def lookupKeyD (kvs : List (String × Json)) (k : String) (d : Json) : Json :=
  match kvs with
  | [] => d
  | (k1, v) :: rest => if k1 = k then v else lookupKeyD rest k d

/-- `x.get(k, d)`: attribute lookup succeeds only on a dict, otherwise an
`AttributeError` is raised. -/
def pyGetD (j : Json) (k : String) (d : Json) : Except PyExc Json :=
  match j with
  | .obj kvs => .ok (lookupKeyD kvs k d)
  | _ => .error (.attributeError
      ("\x27" ++ j.typeName ++ "\x27 object has no attribute \x27get\x27"))

/-- `x.get(k)`: default `None`. -/
def pyGet (j : Json) (k : String) : Except PyExc Json :=
  pyGetD j k .null

/-- Python iteration `for v in x`: lists yield their elements, strings their
characters, dicts their keys; other values raise `TypeError`. -/
def pyIterE (j : Json) : Except PyExc (List Json) :=
  match j with
  | .arr xs => .ok xs
  | .str s => .ok (s.toList.map (fun c => .str (String.mk [c])))
  | .obj kvs => .ok (kvs.map (fun kv => .str kv.1))
  | _ => .error (.typeError
      ("\x27" ++ j.typeName ++ "\x27 object is not iterable"))

/-- Effectful map over a list, stopping at the first raised exception
(a Python `for` loop whose body may raise). -/
def exceptMapM {α β : Type} (f : α → Except PyExc β) : List α → Except PyExc (List β)
  | [] => .ok []
  | x :: xs =>
    match f x with
    | .error e => .error e
    | .ok y =>
      match exceptMapM f xs with
      | .error e => .error e
      | .ok ys => .ok (y :: ys)

/-- Lowercase hexadecimal digit. -/
def hexDigit (n : Nat) : Char :=
  if n < 10 then Char.ofNat (48 + n) else Char.ofNat (87 + (n % 16))

/-- Four lowercase hexadecimal digits, as in `\uXXXX` escapes. -/
def toHex4 (n : Nat) : String :=
  String.mk [hexDigit (n / 4096 % 16), hexDigit (n / 256 % 16),
             hexDigit (n / 16 % 16), hexDigit (n % 16)]

/-- One character of a JSON string under `json.dumps` defaults
(`ensure_ascii=True`): printable ASCII is kept, the two-character escapes
are used where JSON defines them, everything else becomes `\uXXXX`
(a surrogate pair above U+FFFF). -/
def jsonEscapeChar (c : Char) : String :=
  if c = '"' then "\\\""
  else if c = '\\' then "\\\\"
  else if c = '\n' then "\\n"
  else if c = '\r' then "\\r"
  else if c = '\t' then "\\t"
  else if c = '\x08' then "\\b"
  else if c = '\x0c' then "\\f"
  else if c.val < 32 || c.val > 126 then
    if c.val < 65536 then "\\u" ++ toHex4 c.toNat
    else
      "\\u" ++ toHex4 (55296 + (c.toNat - 65536) / 1024)
        ++ "\\u" ++ toHex4 (56320 + (c.toNat - 65536) % 1024)
  else String.mk [c]

/-- A JSON string literal as emitted by `json.dumps`. -/
def jsonQuote (s : String) : String :=
  "\"" ++ String.join (s.toList.map jsonEscapeChar) ++ "\""

/-- `n` spaces. -/
def indentSpaces (n : Nat) : String :=
  String.mk (List.replicate n ' ')

mutual

/-- `json.dumps(j, indent=2)`, at nesting level `ind` (the indent of the
closing bracket). -/
def json_dumps_aux : Nat → Json → String
  | _, .null => "null"
  | _, .bool b => if b then "true" else "false"
  | _, .num n => toString n
  | _, .str s => jsonQuote s
  | _, .arr [] => "[]"
  | ind, .arr (x :: xs) =>
    "[\n" ++ String.intercalate ",\n" (json_dumps_list (ind + 2) (x :: xs))
      ++ "\n" ++ indentSpaces ind ++ "]"
  | _, .obj [] => "\x7b\x7d"
  | ind, .obj (kv :: kvs) =>
    "\x7b\n" ++ String.intercalate ",\n" (json_dumps_obj (ind + 2) (kv :: kvs))
      ++ "\n" ++ indentSpaces ind ++ "\x7d"

/-- The item lines of an array under `json.dumps(·, indent=2)`. -/
def json_dumps_list : Nat → List Json → List String
  | _, [] => []
  | ind, x :: xs =>
    (indentSpaces ind ++ json_dumps_aux ind x) :: json_dumps_list ind xs

/-- The item lines of an object under `json.dumps(·, indent=2)`. -/
def json_dumps_obj : Nat → List (String × Json) → List String
  | _, [] => []
  | ind, (k, v) :: kvs =>
    (indentSpaces ind ++ jsonQuote k ++ ": " ++ json_dumps_aux ind v)
      :: json_dumps_obj ind kvs

end

/-- `json.dumps(j, indent=2)`. -/
def json_dumps_indent2 (j : Json) : String :=
  json_dumps_aux 0 j

mutual

/-- Python `repr` of a value, used when containers are stringified.
String escaping inside `repr` is simplified to plain single quotes; the
program only ever stringifies plain words here. -/
def pyReprFn : Json → String
  | .null => "None"
  | .bool b => if b then "True" else "False"
  | .num n => toString n
  | .str s => "\x27" ++ s ++ "\x27"
  | .arr xs => "[" ++ String.intercalate ", " (pyReprList xs) ++ "]"
  | .obj kvs => "\x7b" ++ String.intercalate ", " (pyReprObj kvs) ++ "\x7d"

/-- `repr` of the elements of a list. -/
def pyReprList : List Json → List String
  | [] => []
  | x :: xs => pyReprFn x :: pyReprList xs

/-- `repr` of the items of a dict. -/
def pyReprObj : List (String × Json) → List String
  | [] => []
  | (k, v) :: kvs => ("\x27" ++ k ++ "\x27: " ++ pyReprFn v) :: pyReprObj kvs

end

/-- Python `str(x)`, as applied by an f-string interpolation. -/
def Json.pyStr : Json → String
  | .str s => s
  | j => pyReprFn j

/-- What the HTTP layer did for one request: a transport-level failure
(`requests.exceptions.RequestException`), an HTTP error status raised by
`raise_for_status` (`requests.exceptions.HTTPError`, carrying the status,
the exception text and the response body text), a 2xx response whose body
is not valid JSON (`.json()` raises), or a 2xx response with a decoded
JSON body. -/
inductive HttpOutcome where
  | transportError (msg : String) : HttpOutcome
  | httpError (status : Nat) (msg : String) (bodyText : String) : HttpOutcome
  | badJson (msg : String) : HttpOutcome
  | ok (body : Json) : HttpOutcome

/-! ## The free-dictionary client (`get_free_dictionary_definition`) -/

/-- One formatted definition string:
`f"(\x7bpart_of_speech\x7d) \x7bdefinition\x7d"`, with the example line
appended when `example` is truthy. -/
def renderDef (part_of_speech definition example_ : Json) : String :=
  let def_str := "(" ++ part_of_speech.pyStr ++ ") " ++ definition.pyStr
  if example_.truthy then
    def_str ++ "\n  - Example: \"" ++ example_.pyStr ++ "\""
  else def_str

/-- The body of the inner loops for one `definition_info` object, with the
enclosing meaning's `part_of_speech` fixed. -/
def renderDefInfo (part_of_speech definition_info : Json) :
    Except PyExc String :=
  match pyGetD definition_info "definition" (.str "No definition found.") with
  | .error e => .error e
  | .ok definition =>
    match pyGetD definition_info "example" (.str "") with
    | .error e => .error e
    | .ok example_ => .ok (renderDef part_of_speech definition example_)

/-- The inner loop body over one `meaning` object. -/
def defsOfMeaning (meaning : Json) : Except PyExc (List String) :=
  match pyGetD meaning "partOfSpeech" (.str "N/A") with
  | .error e => .error e
  | .ok part_of_speech =>
    match pyGetD meaning "definitions" (.arr []) with
    | .error e => .error e
    | .ok defsJ =>
      match pyIterE defsJ with
      | .error e => .error e
      | .ok definition_infos =>
        exceptMapM (renderDefInfo part_of_speech) definition_infos

/-- The loop body over one `entry` object. -/
def defsOfEntry (entry : Json) : Except PyExc (List String) :=
  match pyGetD entry "meanings" (.arr []) with
  | .error e => .error e
  | .ok meaningsJ =>
    match pyIterE meaningsJ with
    | .error e => .error e
    | .ok meanings =>
      match exceptMapM defsOfMeaning meanings with
      | .error e => .error e
      | .ok lists => .ok lists.flatten

/-- The `definitions` list accumulated by the nested loops:
`if isinstance(data, list) and data:` guards the whole accumulation. -/
def dictFlatten (data : Json) : Except PyExc (List String) :=
  match data with
  | .arr (e :: es) =>
    (match exceptMapM defsOfEntry (e :: es) with
     | .error ex => .error ex
     | .ok lists => .ok lists.flatten)
  | _ => .ok []

/-- The `try` block of `get_free_dictionary_definition` after the HTTP
outcome is fixed. -/
def dictTry (resp : HttpOutcome) : Except PyExc String :=
  match resp with
  | .transportError m => .error (.requestException m)
  | .httpError st m b => .error (.httpError st m b)
  | .badJson m => .error (.jsonDecodeError m)
  | .ok data =>
    match dictFlatten data with
    | .error e => .error e
    | .ok definitions =>
      .ok (if definitions.isEmpty then "No definition found for this word."
           else String.intercalate "\n" definitions)

/-- `get_free_dictionary_definition(word)`: the returned string, or `none`
when an exception escapes the function (its handlers catch only
`HTTPError`, `RequestException` and `json.JSONDecodeError`; an
`AttributeError`/`TypeError` from the parsing loops is uncaught). -/
def get_free_dictionary_definition (resp : HttpOutcome) : Option String :=
  match dictTry resp with
  | .ok s => some s
  | .error e =>
    match e with
    | .httpError st m _ =>
      some (if st == 404 then "Word not found in this dictionary."
            else "HTTP error occurred: " ++ m)
    | .requestException m => some ("An error occurred: " ++ m)
    | .jsonDecodeError _ => some "Could not parse the response from the server."
    | _ => none

/-! ## The LLM client (`get_llm_definition`) -/

/-- The error message built when the response shape check fails:
`"Error: Unexpected API response format." + json.dumps(result, indent=2)`. -/
def llmFormatError (result : Json) : Json :=
  .str ("Error: Unexpected API response format.\n\nRaw response:\n"
        ++ json_dumps_indent2 result)

/-- The response-shape check and extraction of lines 67–81 of `d.py`:
the chained truthiness/`isinstance`/length tests, yielding the first
part's text on success, the format-error message when a test fails, and
propagating the `AttributeError` raised when a `.get` target is not a
dict. -/
def llmChainRun (result : Json) : Except PyExc Json :=
  match pyGet result "candidates" with
  | .error e => .error e
  | .ok candidates =>
    if candidates.truthy then
      (match candidates with
       | .arr (c0 :: _) =>
         (match pyGet c0 "content" with
          | .error e => .error e
          | .ok content =>
            if content.truthy then
              (match pyGet content "parts" with
               | .error e => .error e
               | .ok parts =>
                 if parts.truthy then
                   (match parts with
                    | .arr (p0 :: _) =>
                      (match pyGet p0 "text" with
                       | .error e => .error e
                       | .ok text =>
                         if text.truthy then .ok text
                         else .ok (llmFormatError result))
                    | _ => .ok (llmFormatError result))
                 else .ok (llmFormatError result))
            else .ok (llmFormatError result))
       | _ => .ok (llmFormatError result))
    else .ok (llmFormatError result)

/-- The `try` block of `get_llm_definition` after the HTTP outcome is
fixed (the body that may raise). -/
def llmTry (resp : HttpOutcome) : Except PyExc Json :=
  match resp with
  | .transportError m => .error (.requestException m)
  | .httpError st m b => .error (.httpError st m b)
  | .badJson m => .error (.jsonDecodeError m)
  | .ok result => llmChainRun result

/-- The except-clause chain of `get_llm_definition`, in source order:
`HTTPError`, then `RequestException`, then `(KeyError, IndexError,
TypeError)`, then `Exception`.  `json.JSONDecodeError` is a `ValueError`
and an `AttributeError` is neither of the named classes, so both reach
the final catch-all.  `none` would mean no clause matched (impossible:
every modelled exception derives from `Exception`). -/
def pyCatchLlm (e : PyExc) : Option Json :=
  match e with
  | .httpError _ m body =>
    some (.str ("An HTTP error occurred: " ++ m ++ "\nResponse: " ++ body))
  | .requestException m =>
    some (.str ("A network error occurred while contacting the LLM: " ++ m))
  | .keyError m => some (.str ("Error parsing the LLM response: " ++ m))
  | .indexError m => some (.str ("Error parsing the LLM response: " ++ m))
  | .typeError m => some (.str ("Error parsing the LLM response: " ++ m))
  | .jsonDecodeError m => some (.str ("An unexpected error occurred: " ++ m))
  | .attributeError m => some (.str ("An unexpected error occurred: " ++ m))

/-- `get_llm_definition(word, callback)`: the value passed to `callback`,
or `none` if an exception escaped (which the blanket `except Exception`
prevents). -/
def get_llm_definition (resp : HttpOutcome) : Option Json :=
  match llmTry resp with
  | .ok v => some v
  | .error e => pyCatchLlm e

/-! ## The GUI handlers (`search_word`, `_insert_llm_result`) -/

/-- Python whitespace for `str.strip()` (the ASCII part). -/
def isPyWhitespace (c : Char) : Bool :=
  c = ' ' || c = '\t' || c = '\n' || c = '\r' || c = '\x0b' || c = '\x0c'

/-- Python `s.strip()`. -/
def pyStrip (s : String) : String :=
  String.mk (((s.toList.dropWhile isPyWhitespace).reverse.dropWhile
    isPyWhitespace).reverse)

/-- Index (0-based) of the first occurrence of `needle` in `hay`, if any:
the model of a forward `Text.search` from index `1.0`. -/
def findSub : List Char → List Char → Option Nat
  | hay, needle =>
    if needle.isPrefixOf hay then some 0
    else
      match hay with
      | [] => none
      | _ :: t => (findSub t needle).map (fun n => n + 1)

/-- The literal the completion callback searches for. -/
def llmSearchNeedle : String := "Fetching definition from LLM..."

/-- The placeholder line `search_word` inserts (with its newline). -/
def placeholderLine : String := "Fetching definition from LLM... Please wait.\n"

/-- The delete-and-insert step at match position `i`: Tk deletes from the
match to the same column of the following line (index `start + 1 lines`,
clamped to that line's end, or to the end of the text when no next line
exists) and inserts `resultNL` (`result + "\n\n"`) at the match position.
The column of `i` is the length of the run of non-newline characters just
before it. -/
def insert_llm_result_at (cs resultNL : List Char) (i : Nat) : String :=
  match (cs.drop i).dropWhile (fun c => c ≠ '\n') with
  | [] => String.mk (cs.take i ++ resultNL)
  | _ :: rest2 =>
    String.mk (cs.take i ++ resultNL
      ++ rest2.drop
        (min (((cs.take i).reverse.takeWhile (fun c => c ≠ '\n')).length)
             ((rest2.takeWhile (fun c => c ≠ '\n')).length)))

/-- `_insert_llm_result(result)` acting on the widget text `content`:
search for the first occurrence of the needle; if absent, append
`result + "\n\n"` at `END`; otherwise delete one Tk line from the match
and insert `result + "\n\n"` there. -/
def insert_llm_result (content result : String) : String :=
  match findSub content.toList llmSearchNeedle.toList with
  | none => content ++ result ++ "\n\n"
  | some i => insert_llm_result_at content.toList (result ++ "\n\n").toList i

/-- The observable effects of one `search_word` invocation. -/
structure SearchOutcome where
  warned : Bool
  dictRequested : Bool
  llmRequested : Bool
  display : String

/-- `search_word(event)` on raw entry text `raw` with current widget text
`display`; `dictResp` is what the dictionary HTTP layer does if called.
`none` means an exception escaped the handler. -/
def search_word (raw display : String) (dictResp : HttpOutcome) :
    Option SearchOutcome :=
  let word := pyStrip raw
  if word = "" then
    some ⟨true, false, false, display⟩
  else
    match get_free_dictionary_definition dictResp with
    | none => none
    | some definition1 =>
      some ⟨false, true, true,
        "--- Free Dictionary (dictionaryapi.dev) ---\n" ++ definition1
          ++ "\n\n" ++ "--- LLM Definition (Gemini) ---\n" ++ placeholderLine⟩

/-! ## Spec-side typed model of a dictionary response

Modelled from the spec for the refinement claim about flattening: an entry
has meanings, a meaning a part-of-speech tag and definitions, a definition a
text and an optional example. -/

/-- One definition sense: text plus optional example. -/
structure SpecDefinition where
  text : String
  example_ : Option String

/-- One meaning: part-of-speech tag plus its definitions. -/
structure SpecMeaning where
  partOfSpeech : String
  defs : List SpecDefinition

/-- One entry: its meanings. -/
structure SpecEntry where
  meanings : List SpecMeaning

/-- The spec's formatted string for one definition:
`(part-of-speech) definition text`, with the example line appended
exactly when an example is present. -/
def specRender (pos : String) (d : SpecDefinition) : String :=
  "(" ++ pos ++ ") " ++ d.text ++
    (match d.example_ with
     | none => ""
     | some e => "\n  - Example: \"" ++ e ++ "\"")

/-- The spec's order-preserving flattening across all entries and
meanings. -/
def specFlatten (entries : List SpecEntry) : List String :=
  (entries.map (fun en =>
    (en.meanings.map (fun m => m.defs.map (specRender m.partOfSpeech))).flatten)).flatten

/-- The JSON value the dictionary service sends for one definition. -/
def jsonOfDef (d : SpecDefinition) : Json :=
  .obj (("definition", .str d.text) ::
    (match d.example_ with
     | none => []
     | some e => [("example", .str e)]))

/-- The JSON value for one meaning. -/
def jsonOfMeaning (m : SpecMeaning) : Json :=
  .obj [("partOfSpeech", .str m.partOfSpeech),
        ("definitions", .arr (m.defs.map jsonOfDef))]

/-- The JSON value for one entry. -/
def jsonOfEntry (en : SpecEntry) : Json :=
  .obj [("meanings", .arr (en.meanings.map jsonOfMeaning))]

/-! ## Helper lemmas -/

lemma string_mk_toList (s : String) : String.mk s.toList = s := rfl

lemma toList_append (a b : String) : (a ++ b).toList = a.toList ++ b.toList :=
  String.data_append a b

lemma exceptMapM_map {α β γ : Type} (g : α → γ) (f : γ → Except PyExc β)
    (h : α → β) :
    ∀ (l : List α), (∀ x ∈ l, f (g x) = .ok (h x)) →
      exceptMapM f (l.map g) = .ok (l.map h) := by
  intro l
  induction l with
  | nil => intro _; rfl
  | cons x xs ih =>
    intro hall
    have hx := hall x (List.mem_cons_self x xs)
    have hxs := ih (fun y hy => hall y (List.mem_cons_of_mem x hy))
    simp only [List.map_cons, exceptMapM, hx, hxs]

lemma takeWhile_append_eq {p : Char → Bool} :
    ∀ (xs : List Char) (y : Char) (ys : List Char),
      (∀ c ∈ xs, p c = true) → p y = false →
      (xs ++ y :: ys).takeWhile p = xs := by
  intro xs
  induction xs with
  | nil => intro y ys _ hy; simp [List.takeWhile_cons, hy]
  | cons a t ih =>
    intro y ys hall hy
    have ha := hall a (List.mem_cons_self a t)
    simp [List.takeWhile_cons, ha,
      ih y ys (fun c hc => hall c (List.mem_cons_of_mem a hc)) hy]

lemma dropWhile_append_eq {p : Char → Bool} :
    ∀ (xs : List Char) (y : Char) (ys : List Char),
      (∀ c ∈ xs, p c = true) → p y = false →
      (xs ++ y :: ys).dropWhile p = y :: ys := by
  intro xs
  induction xs with
  | nil => intro y ys _ hy; simp [List.dropWhile_cons, hy]
  | cons a t ih =>
    intro y ys hall hy
    have ha := hall a (List.mem_cons_self a t)
    simp [List.dropWhile_cons, ha,
      ih y ys (fun c hc => hall c (List.mem_cons_of_mem a hc)) hy]

lemma dropWhile_eq_nil_of_all {p : Char → Bool} :
    ∀ (l : List Char), (∀ c ∈ l, p c = true) → l.dropWhile p = [] := by
  intro l
  induction l with
  | nil => intro _; rfl
  | cons a t ih =>
    intro hall
    have ha := hall a (List.mem_cons_self a t)
    simp [List.dropWhile_cons, ha,
      ih (fun c hc => hall c (List.mem_cons_of_mem a hc))]

lemma isEmpty_empty_str : ("" : String).isEmpty = true := rfl

lemma isEmpty_false_of_ne {s : String} (h : s ≠ "") : s.isEmpty = false := by
  cases hh : s.isEmpty
  · rfl
  · exact absurd ((String.isEmpty_iff s).mp hh) h

lemma defsOfMeaning_jsonOfMeaning (m : SpecMeaning)
    (hex : ∀ d ∈ m.defs, d.example_ ≠ some "") :
    defsOfMeaning (jsonOfMeaning m) =
      .ok (m.defs.map (specRender m.partOfSpeech)) := by
  have h1 : pyGetD (jsonOfMeaning m) "partOfSpeech" (.str "N/A") =
      .ok (.str m.partOfSpeech) := rfl
  have h2 : pyGetD (jsonOfMeaning m) "definitions" (.arr []) =
      .ok (.arr (m.defs.map jsonOfDef)) := rfl
  have h3 : pyIterE (.arr (m.defs.map jsonOfDef)) =
      .ok (m.defs.map jsonOfDef) := rfl
  have h4 : exceptMapM (renderDefInfo (.str m.partOfSpeech))
      (m.defs.map jsonOfDef) =
      .ok (m.defs.map (specRender m.partOfSpeech)) := by
    apply exceptMapM_map
    intro d hd
    have hdef : pyGetD (jsonOfDef d) "definition" (.str "No definition found.") =
        .ok (.str d.text) := by
      cases hde : d.example_ <;> simp [jsonOfDef, pyGetD, lookupKeyD, hde]
    cases hde : d.example_ with
    | none =>
      have hexm : pyGetD (jsonOfDef d) "example" (.str "") = .ok (.str "") := by
        simp [jsonOfDef, pyGetD, lookupKeyD, hde]
      simp [renderDefInfo, hdef, hexm, renderDef, specRender, hde,
        Json.truthy, Json.pyStr, isEmpty_empty_str]
    | some e =>
      have hexm : pyGetD (jsonOfDef d) "example" (.str "") = .ok (.str e) := by
        simp [jsonOfDef, pyGetD, lookupKeyD, hde]
      have hne : e ≠ "" := by
        intro hcon
        exact hex d hd (by rw [hde, hcon])
      simp [renderDefInfo, hdef, hexm, renderDef, specRender, hde,
        Json.truthy, Json.pyStr, isEmpty_false_of_ne hne,
        String.append_assoc]
  simp only [defsOfMeaning, h1, h2, h3, h4]

lemma defsOfEntry_jsonOfEntry (en : SpecEntry)
    (hex : ∀ m ∈ en.meanings, ∀ d ∈ m.defs, d.example_ ≠ some "") :
    defsOfEntry (jsonOfEntry en) =
      .ok ((en.meanings.map
        (fun m => m.defs.map (specRender m.partOfSpeech))).flatten) := by
  have h1 : pyGetD (jsonOfEntry en) "meanings" (.arr []) =
      .ok (.arr (en.meanings.map jsonOfMeaning)) := rfl
  have h2 : pyIterE (.arr (en.meanings.map jsonOfMeaning)) =
      .ok (en.meanings.map jsonOfMeaning) := rfl
  have h3 : exceptMapM defsOfMeaning (en.meanings.map jsonOfMeaning) =
      .ok (en.meanings.map (fun m => m.defs.map (specRender m.partOfSpeech))) :=
    exceptMapM_map _ _ _ _
      (fun m hm => defsOfMeaning_jsonOfMeaning m (hex m hm))
  simp only [defsOfEntry, h1, h2, h3]

lemma truthy_str_eq (s : String) : (Json.str s).truthy = !s.isEmpty := rfl

lemma truthy_arr_eq (xs : List Json) : (Json.arr xs).truthy = !xs.isEmpty := rfl

lemma truthy_obj_eq (kvs : List (String × Json)) :
    (Json.obj kvs).truthy = !kvs.isEmpty := rfl

lemma list_isEmpty_false_of_ne {α : Type} {l : List α} (h : l ≠ []) :
    l.isEmpty = false := by
  rw [Bool.eq_false_iff]
  intro hh
  exact h (List.isEmpty_iff.mp hh)

lemma dict_no_def_of_flatten_nil (data : Json)
    (h : dictFlatten data = .ok []) :
    get_free_dictionary_definition (.ok data) =
      some "No definition found for this word." := by
  simp [get_free_dictionary_definition, dictTry, h]

/-! ## Claim theorems -/

/-- C3: for every word, if the dictionary service responds with HTTP
success but a body that is not decodable as JSON, the dictionary lookup
returns exactly `"Could not parse the response from the server."`. -/
theorem dict_unparsable_body_parse_error (m : String) :
    get_free_dictionary_definition (.badJson m) =
      some "Could not parse the response from the server." := rfl

/-- C7: for every word for which the dictionary service responds with
HTTP status 404, the dictionary lookup returns exactly
`"Word not found in this dictionary."`. -/
theorem dict_404_not_found (m b : String) :
    get_free_dictionary_definition (.httpError 404 m b) =
      some "Word not found in this dictionary." := rfl

/-- C5: for every successfully parsed dictionary response whose flattened
sequence of definitions is empty, the lookup returns exactly
`"No definition found for this word."`. -/
theorem dict_empty_flatten_no_definition (data : Json)
    (h : dictFlatten data = .ok []) :
    get_free_dictionary_definition (.ok data) =
      some "No definition found for this word." :=
  dict_no_def_of_flatten_nil data h

/-- Witness for C5 at the concrete response `[]` of zero entries. -/
theorem dict_empty_flatten_no_definition_witness :
    get_free_dictionary_definition (.ok (.arr [])) =
      some "No definition found for this word." :=
  dict_empty_flatten_no_definition (.arr []) rfl

/-- C9: a response body that decodes as valid JSON but is not a list
(e.g. the error object the service sends), or is an empty list, yields
`"No definition found for this word."` rather than a parse-error status. -/
theorem dict_nonlist_or_empty_no_definition (data : Json)
    (h : data.isList = false ∨ data = .arr []) :
    get_free_dictionary_definition (.ok data) =
      some "No definition found for this word." := by
  have hflat : dictFlatten data = .ok [] := by
    rcases h with h | h
    · cases data with
      | arr xs => simp [Json.isList] at h
      | null => rfl
      | bool b => rfl
      | num n => rfl
      | str s => rfl
      | obj kvs => rfl
    · rw [h]; rfl
  exact dict_no_def_of_flatten_nil data hflat

/-- Witness for C9 at the JSON object the service actually returns for a
missing word. -/
theorem dict_nonlist_or_empty_no_definition_witness :
    get_free_dictionary_definition
      (.ok (.obj [("title", .str "No Definitions Found")])) =
      some "No definition found for this word." :=
  dict_nonlist_or_empty_no_definition
    (.obj [("title", .str "No Definitions Found")]) (Or.inl rfl)

/-- C4: for every successfully parsed response that is a list of entries
(with any present example non-empty), the returned text is the
newline-joined concatenation, in the source order across all entries,
meanings and definitions, of the formatted strings
`(part-of-speech) definition text` with the example line appended exactly
when an example is present.  Order preservation (entries producing
`[A, B]` then `[C]` render `A, B, C`) is the `specFlatten` order. -/
theorem dict_renders_flattened_in_order
    (entries : List SpecEntry)
    (hne : entries ≠ [])
    (hflat : specFlatten entries ≠ [])
    (hex : ∀ en ∈ entries, ∀ m ∈ en.meanings, ∀ d ∈ m.defs,
      d.example_ ≠ some "") :
    get_free_dictionary_definition (.ok (.arr (entries.map jsonOfEntry))) =
      some (String.intercalate "\n" (specFlatten entries)) := by
  obtain ⟨e, es, rfl⟩ : ∃ e es, entries = e :: es := by
    cases entries with
    | nil => exact absurd rfl hne
    | cons e es => exact ⟨e, es, rfl⟩
  have hmapM : exceptMapM defsOfEntry ((e :: es).map jsonOfEntry) =
      .ok ((e :: es).map (fun en =>
        (en.meanings.map
          (fun m => m.defs.map (specRender m.partOfSpeech))).flatten)) :=
    exceptMapM_map _ _ _ _
      (fun en hen => defsOfEntry_jsonOfEntry en (hex en hen))
  have hdf : dictFlatten (.arr (jsonOfEntry e :: es.map jsonOfEntry)) =
      .ok (specFlatten (e :: es)) := by
    simp only [List.map_cons] at hmapM
    simp only [dictFlatten, hmapM]
    rfl
  have hisEmpty : (specFlatten (e :: es)).isEmpty = false :=
    list_isEmpty_false_of_ne hflat
  simp only [List.map_cons]
  simp [get_free_dictionary_definition, dictTry, hdf, hflat, hisEmpty]

/-- Witness for C4: the end-to-end "serendipity" example — one entry, one
meaning, part of speech "noun", one definition, no example. -/
theorem dict_renders_flattened_in_order_witness :
    get_free_dictionary_definition (.ok (.arr
      (([⟨[⟨"noun", [⟨"the occurrence of events by chance in a happy or beneficial way", none⟩]⟩]⟩] : List SpecEntry).map jsonOfEntry))) =
      some "(noun) the occurrence of events by chance in a happy or beneficial way" :=
  dict_renders_flattened_in_order
    [⟨[⟨"noun", [⟨"the occurrence of events by chance in a happy or beneficial way", none⟩]⟩]⟩]
    (List.cons_ne_nil _ _) (by decide) (by decide)

/-- C2: the LLM client never lets an exception escape — for every HTTP
outcome it hands the callback a value — and a successful response with an
undecodable body yields the generic error result wrapping the decode
error's message. -/
theorem llm_total_and_badjson_error :
    (∀ resp : HttpOutcome, (get_llm_definition resp).isSome = true)
    ∧ (∀ m : String, get_llm_definition (.badJson m) =
        some (.str ("An unexpected error occurred: " ++ m))) := by
  constructor
  · intro resp
    cases resp with
    | transportError m => rfl
    | httpError st m b => rfl
    | badJson m => rfl
    | ok body =>
      simp only [get_llm_definition, llmTry]
      cases h : llmChainRun body with
      | ok v => simp [h]
      | error e => simp [h]; cases e <;> simp [pyCatchLlm]
  · intro m; rfl

/-- C10: when the full chain of fields is present and well-shaped but the
first part's `"text"` value is falsy (e.g. the empty string), the client
yields the unexpected-response-format error, not the text, because the
shape check tests truthiness. -/
theorem llm_falsy_text_yields_format_error (t : Json) (ps cs : List Json)
    (h : t.truthy = false) :
    get_llm_definition (.ok (.obj [("candidates",
      .arr (.obj [("content", .obj [("parts",
        .arr (.obj [("text", t)] :: ps))])] :: cs))])) =
      some (llmFormatError (.obj [("candidates",
      .arr (.obj [("content", .obj [("parts",
        .arr (.obj [("text", t)] :: ps))])] :: cs))])) := by
  simp [get_llm_definition, llmTry, llmChainRun, pyGet, pyGetD, lookupKeyD,
    truthy_str_eq, truthy_arr_eq, truthy_obj_eq, h]

/-- Witness for C10 at `"text": ""`. -/
theorem llm_falsy_text_yields_format_error_witness :
    get_llm_definition (.ok (.obj [("candidates",
      .arr (.obj [("content", .obj [("parts",
        .arr (.obj [("text", .str "")] :: []))])] :: []))])) =
      some (llmFormatError (.obj [("candidates",
      .arr (.obj [("content", .obj [("parts",
        .arr (.obj [("text", .str "")] :: []))])] :: []))])) :=
  llm_falsy_text_yields_format_error (.str "") [] [] rfl

/-- Counterexample to C6 as stated: for the well-formed JSON response
`\x7b"candidates": [5]\x7d` the first candidate's `"content"` step is of the
wrong shape, yet the client returns the generic `AttributeError` message,
which neither equals the structured format error nor contains the
pretty-printed response body. -/
theorem llm_wrong_shape_generic_error_cex :
    get_llm_definition (.ok (.obj [("candidates", .arr [.num 5])])) =
      some (.str "An unexpected error occurred: \x27int\x27 object has no attribute \x27get\x27")
    ∧ ("An unexpected error occurred: \x27int\x27 object has no attribute \x27get\x27" : String) ≠
        "Error: Unexpected API response format.\n\nRaw response:\n"
          ++ json_dumps_indent2 (.obj [("candidates", .arr [.num 5])])
    ∧ findSub
        ("An unexpected error occurred: \x27int\x27 object has no attribute \x27get\x27").toList
        (json_dumps_indent2 (.obj [("candidates", .arr [.num 5])])).toList = none :=
  ⟨rfl, by decide, by decide⟩

/-- C6 (amended): whenever a step of the expected chain is absent or
falsy while every value navigated with `.get` is a dict — so the shape
test fails rather than raising — the client returns the structured error
embedding the pretty-printed raw body; a non-dict navigated value instead
produces a generic unexpected-error message (and never a default). -/
theorem llm_shape_failure_pretty_error :
    (∀ (kvs : List (String × Json)),
      (lookupKeyD kvs "candidates" .null).truthy = false →
      get_llm_definition (.ok (.obj kvs)) = some (llmFormatError (.obj kvs)))
    ∧ (∀ (kvs : List (String × Json)) (s : String),
      lookupKeyD kvs "candidates" .null = .str s → s ≠ "" →
      get_llm_definition (.ok (.obj kvs)) = some (llmFormatError (.obj kvs)))
    ∧ (∀ (kvs c0kvs : List (String × Json)) (cs : List Json),
      lookupKeyD kvs "candidates" .null = .arr (.obj c0kvs :: cs) →
      (lookupKeyD c0kvs "content" .null).truthy = false →
      get_llm_definition (.ok (.obj kvs)) = some (llmFormatError (.obj kvs)))
    ∧ (∀ (kvs c0kvs ctkvs : List (String × Json)) (cs : List Json),
      lookupKeyD kvs "candidates" .null = .arr (.obj c0kvs :: cs) →
      lookupKeyD c0kvs "content" .null = .obj ctkvs → ctkvs ≠ [] →
      (lookupKeyD ctkvs "parts" .null).truthy = false →
      get_llm_definition (.ok (.obj kvs)) = some (llmFormatError (.obj kvs)))
    ∧ (∀ (kvs c0kvs ctkvs : List (String × Json)) (cs : List Json) (s : String),
      lookupKeyD kvs "candidates" .null = .arr (.obj c0kvs :: cs) →
      lookupKeyD c0kvs "content" .null = .obj ctkvs → ctkvs ≠ [] →
      lookupKeyD ctkvs "parts" .null = .str s → s ≠ "" →
      get_llm_definition (.ok (.obj kvs)) = some (llmFormatError (.obj kvs)))
    ∧ (∀ (kvs c0kvs ctkvs p0kvs : List (String × Json)) (cs ps : List Json),
      lookupKeyD kvs "candidates" .null = .arr (.obj c0kvs :: cs) →
      lookupKeyD c0kvs "content" .null = .obj ctkvs → ctkvs ≠ [] →
      lookupKeyD ctkvs "parts" .null = .arr (.obj p0kvs :: ps) →
      (lookupKeyD p0kvs "text" .null).truthy = false →
      get_llm_definition (.ok (.obj kvs)) = some (llmFormatError (.obj kvs))) := by
  refine ⟨?_, ?_, ?_, ?_, ?_, ?_⟩
  · intro kvs h
    simp [get_llm_definition, llmTry, llmChainRun, pyGet, pyGetD, h]
  · intro kvs s hc hs
    simp [get_llm_definition, llmTry, llmChainRun, pyGet, pyGetD, hc,
      truthy_str_eq, isEmpty_false_of_ne hs]
  · intro kvs c0kvs cs hc h
    simp [get_llm_definition, llmTry, llmChainRun, pyGet, pyGetD, hc, h,
      truthy_arr_eq]
  · intro kvs c0kvs ctkvs cs hc hct hne h
    simp [get_llm_definition, llmTry, llmChainRun, pyGet, pyGetD, hc, hct, h,
      truthy_arr_eq, truthy_obj_eq, list_isEmpty_false_of_ne hne]
  · intro kvs c0kvs ctkvs cs s hc hct hne hp hs
    simp [get_llm_definition, llmTry, llmChainRun, pyGet, pyGetD, hc, hct, hp,
      truthy_arr_eq, truthy_obj_eq, truthy_str_eq,
      list_isEmpty_false_of_ne hne, isEmpty_false_of_ne hs]
  · intro kvs c0kvs ctkvs p0kvs cs ps hc hct hne hp h
    simp [get_llm_definition, llmTry, llmChainRun, pyGet, pyGetD, hc, hct, hp,
      h, truthy_arr_eq, truthy_obj_eq, list_isEmpty_false_of_ne hne]

/-- Witness for C6 (amended) at two concrete responses: an empty object,
and a truthy non-list `"candidates"`. -/
theorem llm_shape_failure_pretty_error_witness :
    get_llm_definition (.ok (.obj [])) = some (llmFormatError (.obj []))
    ∧ get_llm_definition (.ok (.obj [("candidates", .str "x")])) =
        some (llmFormatError (.obj [("candidates", .str "x")])) :=
  ⟨llm_shape_failure_pretty_error.1 [] rfl,
   llm_shape_failure_pretty_error.2.1 [("candidates", .str "x")] "x" rfl
     (by decide)⟩

/-- C8: a raw input that is empty or whitespace-only makes `search_word`
show the warning, perform no network call to either service, and leave
the display content unchanged. -/
theorem search_word_blank_input_warns
    (raw display : String) (resp : HttpOutcome)
    (h : raw.toList.all isPyWhitespace = true) :
    search_word raw display resp = some ⟨true, false, false, display⟩ := by
  have hstrip : pyStrip raw = "" := by
    unfold pyStrip
    rw [show raw.toList.dropWhile isPyWhitespace = [] from
      dropWhile_eq_nil_of_all _ (List.all_eq_true.mp h)]
    rfl
  simp [search_word, hstrip]

/-- Witness for C8 at the whitespace input `" \t\n"`. -/
theorem search_word_blank_input_warns_witness :
    search_word " \t\n" "abc" (.ok .null) = some ⟨true, false, false, "abc"⟩ :=
  search_word_blank_input_warns " \t\n" "abc" (.ok .null) (by decide)

/-- Counterexample to C1 as stated: the content below contains the literal
placeholder line, but the first occurrence of the searched text
`"Fetching definition from LLM..."` sits mid-line, so the delete span
`[match, match + 1 lines)` destroys other content: the character `y`,
present in the old content, is gone after delivery, so the update neither
replaced exactly the placeholder line nor left the rest byte-identical. -/
theorem insert_llm_result_cex :
    (findSub ("x Fetching definition from LLM... y\nFetching definition from LLM... Please wait.\nZ\n").toList
      placeholderLine.toList).isSome = true
    ∧ findSub ("x Fetching definition from LLM... y\nFetching definition from LLM... Please wait.\nZ\n").toList
        ['y'] ≠ none
    ∧ findSub (insert_llm_result
        "x Fetching definition from LLM... y\nFetching definition from LLM... Please wait.\nZ\n"
        "R").toList ['y'] = none :=
  ⟨by decide, by decide, by decide⟩

/-- C1 (amended): if the first occurrence of the searched text in the
content is at column 0 opening the placeholder line, delivery replaces
exactly that line with the result followed by a blank separator line and
leaves all other content byte-identical; if the searched text is absent,
the result (plus blank line) is appended and nothing is deleted. -/
theorem insert_llm_result_replaces_or_appends
    (p s result content : String)
    (hfirst : findSub (p ++ placeholderLine ++ s).toList
      llmSearchNeedle.toList = some p.toList.length)
    (hcol : p = "" ∨ p.toList.getLast? = some '\n') :
    insert_llm_result (p ++ placeholderLine ++ s) result =
      p ++ result ++ "\n\n" ++ s
    ∧ (findSub content.toList llmSearchNeedle.toList = none →
       insert_llm_result content result = content ++ result ++ "\n\n") := by
  constructor
  · have hpl : placeholderLine =
        "Fetching definition from LLM... Please wait." ++ "\n" := rfl
    have hcs : (p ++ placeholderLine ++ s).toList =
        p.toList ++ (("Fetching definition from LLM... Please wait.").toList
          ++ ('\n' :: s.toList)) := by
      rw [hpl, toList_append, toList_append, toList_append]
      simp [List.append_assoc]
    have hstep : insert_llm_result (p ++ placeholderLine ++ s) result =
        insert_llm_result_at (p ++ placeholderLine ++ s).toList
          (result ++ "\n\n").toList p.toList.length := by
      rw [insert_llm_result, hfirst]
    have htake : (p ++ placeholderLine ++ s).toList.take p.toList.length =
        p.toList := by
      rw [hcs]; exact List.take_left _ _
    have hdrop : (p ++ placeholderLine ++ s).toList.drop p.toList.length =
        ("Fetching definition from LLM... Please wait.").toList
          ++ ('\n' :: s.toList) := by
      rw [hcs]; exact List.drop_left _ _
    have hafter : (("Fetching definition from LLM... Please wait.").toList
        ++ ('\n' :: s.toList)).dropWhile (fun c => c ≠ '\n') =
        '\n' :: s.toList :=
      dropWhile_append_eq _ _ _ (by decide) (by decide)
    have hcol0 : ((p.toList).reverse.takeWhile (fun c => c ≠ '\n')).length
        = 0 := by
      rcases hcol with h | h
      · subst h; rfl
      · have hh := List.head?_reverse p.toList
        rw [h] at hh
        cases hrev : p.toList.reverse with
        | nil => rw [hrev] at hh; simp at hh
        | cons a t =>
          rw [hrev] at hh
          simp at hh
          subst hh
          simp [List.takeWhile_cons]
    rw [hstep, insert_llm_result_at, hdrop, hafter, htake, hcol0]
    apply String.ext
    simp [String.data_append, List.append_assoc]
  · intro hnone
    rw [insert_llm_result, hnone]

/-- Witness for C1 (amended): the placeholder right after the LLM header,
and an unrelated content without the needle. -/
theorem insert_llm_result_replaces_or_appends_witness :
    insert_llm_result
        ("--- LLM Definition (Gemini) ---\n" ++ placeholderLine ++ "") "R" =
      "--- LLM Definition (Gemini) ---\n" ++ "R" ++ "\n\n" ++ ""
    ∧ (findSub ("abc").toList llmSearchNeedle.toList = none →
       insert_llm_result "abc" "R" = "abc" ++ "R" ++ "\n\n") :=
  insert_llm_result_replaces_or_appends
    "--- LLM Definition (Gemini) ---\n" "" "R" "abc"
    (by decide) (Or.inr (by decide))

end Dict
